import Mathlib

/-!
Verification development for the lenzingpro-backend authentication and
token-exchange subsystem.  The definitions below are shallow embeddings of
the TypeScript sources:

* `src/server-enhanced-cors.ts` (PKCE utility: `generateCodeVerifier`,
  `generateCodeChallenge`, `base64UrlEncode`, `isValidCodeVerifier`),
* `src/services/gigya-sdk.ts` (`GigyaSDK.validateUserSignature`),
* `src/middleware/jwt-validator.ts` (`JWTValidator.validateToken`),
* `src/routes/gigya_dev.ts` (`JWTTokenExchangeService` and the
  `/jwt-auth/session` handler),
* `src/routes/auth-flow.ts` (`/auth/callback` handler and the pending-auth
  sweep),
* `src/services/session-store.ts` (`SessionStore.cleanExpired`).

External collaborators (node `crypto`, the `jose` JWT library, the
`node-cache` package, upstream HTTP endpoints) are modelled at the
granularity the routes observe them: random bytes, token-endpoint outcomes
and signature verdicts become explicit parameters, and `node-cache` is
embedded by its set/get/del semantics (ttl 0 means no expiry, a positive
ttl stores an absolute millisecond deadline, `get` evicts entries whose
deadline is strictly in the past).  Machine integers are modelled as `Int`
or `Nat`; JavaScript numbers in this code stay far below 2^53, where
integer arithmetic is exact.
-/

namespace LenzingProof

/-! ### Association-list stores

The source keeps pending authorizations, sessions and cached tokens in
JavaScript `Map`s (or the `node-cache` key-value store).  We embed such a
map as an association list with the usual replace-on-set semantics. -/

def lookupA {α : Type} (l : List (String × α)) (k : String) : Option α :=
  (l.find? (fun p => p.1 == k)).map (fun p => p.2)

def eraseA {α : Type} (l : List (String × α)) (k : String) : List (String × α) :=
  l.filter (fun p => p.1 != k)

def insertA {α : Type} (l : List (String × α)) (k : String) (v : α) : List (String × α) :=
  (k, v) :: eraseA l k

theorem lookupA_insertA {α : Type} (l : List (String × α)) (k : String) (v : α) :
    lookupA (insertA l k v) k = some v := by
  simp [lookupA, insertA, List.find?]

theorem lookupA_eraseA {α : Type} (l : List (String × α)) (k : String) :
    lookupA (eraseA l k) k = none := by
  have h : ∀ p ∈ eraseA l k, ¬ (p.1 == k) = true := by
    intro p hp
    simp only [eraseA, List.mem_filter, bne_iff_ne] at hp
    simp [hp.2]
  simp [lookupA, List.find?_eq_none.mpr h]

/-! ### PKCE utility (`src/server-enhanced-cors.ts`)

`generateCodeVerifier` draws `length` random bytes, base64url-encodes them
(standard base64 with `+` replaced by `-`, `/` by `_` and `=` removed) and
truncates to `length` characters.  The random bytes become an explicit
argument. -/

def base64StdAlphabet : List Char :=
  ['A', 'B', 'C', 'D', 'E', 'F', 'G', 'H', 'I', 'J', 'K', 'L', 'M',
   'N', 'O', 'P', 'Q', 'R', 'S', 'T', 'U', 'V', 'W', 'X', 'Y', 'Z',
   'a', 'b', 'c', 'd', 'e', 'f', 'g', 'h', 'i', 'j', 'k', 'l', 'm',
   'n', 'o', 'p', 'q', 'r', 's', 't', 'u', 'v', 'w', 'x', 'y', 'z',
   '0', '1', '2', '3', '4', '5', '6', '7', '8', '9', '+', '/']

def b64char (i : Nat) : Char :=
  base64StdAlphabet.getD (i % 64) 'A'

/-- Standard base64 of a byte list, with `=` padding, as produced by
`Buffer.toString base64`: three bytes become four sextet characters, a
trailing one- or two-byte group is padded. -/
def base64Chars : List Nat → List Char
  | [] => []
  | [b1] => [b64char (b1 / 4), b64char (b1 % 4 * 16), '=', '=']
  | [b1, b2] =>
      [b64char (b1 / 4), b64char (b1 % 4 * 16 + b2 / 16), b64char (b2 % 16 * 4), '=']
  | b1 :: b2 :: b3 :: rest =>
      b64char (b1 / 4) :: b64char (b1 % 4 * 16 + b2 / 16) ::
      b64char (b2 % 16 * 4 + b3 / 64) :: b64char (b3 % 64) :: base64Chars rest

/-- The `.replace` chain of `base64UrlEncode`: `+` to `-` and `/` to `_`. -/
def urlSafeChar (c : Char) : Char :=
  if c = '+' then '-' else if c = '/' then '_' else c

/-- `base64UrlEncode` from the source: standard base64, URL-safe character
substitution, padding stripped. -/
def base64UrlChars (bs : List Nat) : List Char :=
  ((base64Chars bs).map urlSafeChar).filter (fun c => c != '=')

/-- `generateCodeVerifier(length)`: throws outside 43..128, otherwise
base64url-encodes `length` random bytes and truncates to `length`. -/
def generateCodeVerifier (length : Nat) (randomBytes : List Nat) : Except String String :=
  if length < 43 ∨ 128 < length then
    Except.error "Code verifier length must be between 43 and 128 characters"
  else
    Except.ok (String.mk ((base64UrlChars randomBytes).take length))

/-- The unreserved character class of the `isValidCodeVerifier` regex. -/
def isUnreservedChar (c : Char) : Bool :=
  (decide (65 ≤ c.toNat) && decide (c.toNat ≤ 90)) ||
  (decide (97 ≤ c.toNat) && decide (c.toNat ≤ 122)) ||
  (decide (48 ≤ c.toNat) && decide (c.toNat ≤ 57)) ||
  c == '-' || c == '.' || c == '_' || c == '~'

/-- `isValidCodeVerifier`: length between 43 and 128 and every character in
the unreserved class. -/
def isValidCodeVerifier (v : String) : Bool :=
  if v.length < 43 || decide (128 < v.length) then false
  else v.data.all isUnreservedChar

theorem b64char_ne_pad (i : Nat) : urlSafeChar (b64char i) ≠ '=' := by
  have h : i % 64 < 64 := Nat.mod_lt _ (by norm_num)
  have hall : ∀ j, j < 64 → urlSafeChar (base64StdAlphabet.getD j 'A') ≠ '=' := by decide
  exact hall (i % 64) h

theorem b64char_unreserved (i : Nat) : isUnreservedChar (urlSafeChar (b64char i)) = true := by
  have h : i % 64 < 64 := Nat.mod_lt _ (by norm_num)
  have hall : ∀ j, j < 64 →
      isUnreservedChar (urlSafeChar (base64StdAlphabet.getD j 'A')) = true := by decide
  exact hall (i % 64) h

theorem urlSafeChar_pad : urlSafeChar '=' = '=' := by decide

theorem base64UrlChars_length (bs : List Nat) :
    (base64UrlChars bs).length = (4 * bs.length + 2) / 3 := by
  induction bs using base64Chars.induct with
  | case1 => simp [base64UrlChars, base64Chars]
  | case2 b1 =>
      simp [base64UrlChars, base64Chars, List.filter_cons, b64char_ne_pad, urlSafeChar_pad]
  | case3 b1 b2 =>
      simp [base64UrlChars, base64Chars, List.filter_cons, b64char_ne_pad, urlSafeChar_pad]
  | case4 b1 b2 b3 rest ih =>
      simp only [base64UrlChars, base64Chars, List.map_cons, List.filter_cons] at ih ⊢
      rw [if_pos (by simp [b64char_ne_pad]), if_pos (by simp [b64char_ne_pad]),
        if_pos (by simp [b64char_ne_pad]), if_pos (by simp [b64char_ne_pad])]
      simp only [List.length_cons, ih]
      omega

theorem mem_base64Chars (bs : List Nat) :
    ∀ d ∈ base64Chars bs, d = '=' ∨ ∃ i, d = b64char i := by
  induction bs using base64Chars.induct with
  | case1 => intro d hd; simp [base64Chars] at hd
  | case2 b1 =>
      intro d hd
      simp only [base64Chars, List.mem_cons, List.not_mem_nil, or_false] at hd
      rcases hd with h | h | h | h
      · exact Or.inr ⟨_, h⟩
      · exact Or.inr ⟨_, h⟩
      · exact Or.inl h
      · exact Or.inl h
  | case3 b1 b2 =>
      intro d hd
      simp only [base64Chars, List.mem_cons, List.not_mem_nil, or_false] at hd
      rcases hd with h | h | h | h
      · exact Or.inr ⟨_, h⟩
      · exact Or.inr ⟨_, h⟩
      · exact Or.inr ⟨_, h⟩
      · exact Or.inl h
  | case4 b1 b2 b3 rest ih =>
      intro d hd
      simp only [base64Chars, List.mem_cons] at hd
      rcases hd with h | h | h | h | h
      · exact Or.inr ⟨_, h⟩
      · exact Or.inr ⟨_, h⟩
      · exact Or.inr ⟨_, h⟩
      · exact Or.inr ⟨_, h⟩
      · exact ih d h

theorem base64UrlChars_unreserved (bs : List Nat) :
    ∀ c ∈ base64UrlChars bs, isUnreservedChar c = true := by
  intro c hc
  simp only [base64UrlChars, List.mem_filter, List.mem_map] at hc
  obtain ⟨⟨d, hd, rfl⟩, hne⟩ := hc
  rcases mem_base64Chars bs d hd with rfl | ⟨i, rfl⟩
  · simp [urlSafeChar_pad] at hne
  · exact b64char_unreserved i

/-- C9: for every length argument in 43..128 the generated PKCE verifier is
a string whose length lies in 43..128 and whose characters all belong to
the unreserved set, and for every length argument outside 43..128 the
generator fails with an error instead of returning a verifier. -/
theorem generateCodeVerifier_spec (length : Nat) (randomBytes : List Nat)
    (hbytes : randomBytes.length = length) :
    (43 ≤ length → length ≤ 128 →
      ∃ v, generateCodeVerifier length randomBytes = Except.ok v ∧
        isValidCodeVerifier v = true) ∧
    ((length < 43 ∨ 128 < length) →
      ∃ msg, generateCodeVerifier length randomBytes = Except.error msg) := by
  constructor
  · intro h43 h128
    have hcond : ¬ (length < 43 ∨ 128 < length) := by omega
    refine ⟨String.mk ((base64UrlChars randomBytes).take length), ?_, ?_⟩
    · simp [generateCodeVerifier, hcond]
    have hlen : ((base64UrlChars randomBytes).take length).length = length := by
      rw [List.length_take, base64UrlChars_length, hbytes]
      omega
    have hstr : (String.mk ((base64UrlChars randomBytes).take length)).length = length := hlen
    have h1 : ¬ ((String.mk ((base64UrlChars randomBytes).take length)).length < 43) := by
      rw [hstr]; omega
    have h2 : ¬ (128 < (String.mk ((base64UrlChars randomBytes).take length)).length) := by
      rw [hstr]; omega
    simp only [isValidCodeVerifier, h1, h2, decide_eq_true_eq, Bool.or_eq_true,
      decide_eq_true_iff, or_self, if_false, if_neg]
    rw [List.all_eq_true]
    intro c hcmem
    exact base64UrlChars_unreserved randomBytes c (List.take_subset _ _ hcmem)
  · intro h
    exact ⟨"Code verifier length must be between 43 and 128 characters",
      by simp [generateCodeVerifier, h]⟩

/-- Closed witness for generateCodeVerifier_spec at length 43 over 43 zero
bytes. -/
theorem generateCodeVerifier_spec_witness :
    ∃ v, generateCodeVerifier 43 (List.replicate 43 0) = Except.ok v ∧
      isValidCodeVerifier v = true :=
  (generateCodeVerifier_spec 43 (List.replicate 43 0) (by simp)).1 (by omega) (by omega)

/-! ### HMAC signature verifier (`src/services/gigya-sdk.ts`)

`GigyaSDK.validateUserSignature` parses the timestamp with
`parseInt(timestamp, 10)`, rejects stale or unparseable timestamps, and
compares the supplied signature to the recomputed one.  The private
`calcSignature` method (base64 of HMAC-SHA1 keyed by the base64-decoded
secret) is a pure function of the base string for a fixed secret, and is
abstracted as a function parameter. -/

def jsWhitespaceChar (c : Char) : Bool :=
  c == ' ' || c == '\t' || c == '\n' || c == '\r'

def isDigitChar (c : Char) : Bool :=
  decide (48 ≤ c.toNat) && decide (c.toNat ≤ 57)

def skipWs : List Char → List Char
  | [] => []
  | c :: cs => if jsWhitespaceChar c then skipWs cs else c :: cs

/-- JavaScript parseInt(s, 10): skip leading whitespace, optional sign, then
the longest digit run; NaN (here none) when no digit follows. -/
def parseInt10 (s : String) : Option Int :=
  let cs := skipWs s.data
  let signAndRest : Int × List Char :=
    match cs with
    | '-' :: t => (-1, t)
    | '+' :: t => (1, t)
    | t => (1, t)
  let ds := signAndRest.2.takeWhile isDigitChar
  if ds.isEmpty then none
  else some (signAndRest.1 * ds.foldl (fun a c => a * 10 + ((c.toNat : Int) - 48)) 0)

/-- GigyaSDK.validateUserSignature: timestamp freshness within
expirationSeconds of now (absolute difference), then signature equality
against calcSignature of timestamp_uid. -/
def validateUserSignature (calcSignature : String → String) (now : Int)
    (uid timestamp signature : String) (expirationSeconds : Int) : Bool :=
  match parseInt10 timestamp with
  | none => false
  | some signatureTimestamp =>
    if expirationSeconds < ((now - signatureTimestamp).natAbs : Int) then false
    else calcSignature (timestamp ++ "_" ++ uid) == signature

/-- C8: with the default 300 second window, validateUserSignature returns
true exactly when the supplied signature equals the recomputed
base64 HMAC-SHA1 signature of timestamp_uid and the timestamp is within
300 seconds of now. -/
theorem validateUserSignature_spec (calcSignature : String → String) (now ts : Int)
    (uid timestamp signature : String)
    (hts : parseInt10 timestamp = some ts) :
    validateUserSignature calcSignature now uid timestamp signature 300 = true ↔
      (signature = calcSignature (timestamp ++ "_" ++ uid) ∧
        ((now - ts).natAbs : Int) ≤ 300) := by
  simp only [validateUserSignature, hts]
  by_cases h : (300 : Int) < ((now - ts).natAbs : Int)
  · rw [if_pos h]
    simp only [Bool.false_eq_true, false_iff]
    rintro ⟨-, h2⟩
    omega
  · rw [if_neg h]
    rw [beq_iff_eq]
    constructor
    · intro he
      exact ⟨he.symm, by omega⟩
    · rintro ⟨h1, -⟩
      exact h1.symm

/-- Closed witness for validateUserSignature_spec: a correct signature whose
timestamp lies 400 seconds in the past (beyond the default 300 second
window) is rejected. -/
theorem validateUserSignature_spec_witness :
    validateUserSignature (fun s => s) 1000 "u1" "600" "600_u1" 300 = false := by
  have h := validateUserSignature_spec (fun s => s) 1000 600 "u1" "600" "600_u1" (by decide)
  have hne : ¬ (validateUserSignature (fun s => s) 1000 "u1" "600" "600_u1" 300 = true) := by
    rw [h]
    rintro ⟨-, h2⟩
    norm_num at h2
  simpa using hne

/-! ### JWT validator (`src/middleware/jwt-validator.ts`)

`JWTValidator.validateToken` strips an optional Bearer prefix, calls jose
jwtVerify against the remote key set with the configured issuer and
audience and clockTolerance 30, requires a sub claim, and then re-checks
expiry without any tolerance.  The assertion is embedded as its decoded
claims plus a signature verdict; the Bearer-prefix stripping and the JWKS
fetch do not affect the decoded claims and are absorbed into that
verdict. -/

structure JWTClaimsModel where
  sub : String
  iss : String
  aud : List String
  exp : Option Int
deriving DecidableEq

structure AssertionModel where
  claims : JWTClaimsModel
  signatureValid : Bool
deriving DecidableEq

structure JWTValidationResult where
  valid : Bool
  payload : Option JWTClaimsModel
  error : Option String
deriving DecidableEq

/-- jose jwtVerify as configured by validateToken: signature against the key
set, issuer equality, audience membership (a string aud is a one-element
list), and the exp claim with clockTolerance seconds of skew -- jose
rejects exactly when exp is at most now minus the tolerance. -/
def joseJwtVerify (issuer audience : String) (clockTolerance : Int) (now : Int)
    (t : AssertionModel) : Bool :=
  t.signatureValid && (t.claims.iss == issuer) && t.claims.aud.contains audience &&
    (match t.claims.exp with
     | none => true
     | some e => decide (now - clockTolerance < e))

/-- JWTValidator.validateToken: jwtVerify with clockTolerance 30, then the
required sub claim, then the additional expiry check with no tolerance
(a truthy exp strictly before now is rejected). -/
def validateToken (issuer audience : String) (now : Int) (t : AssertionModel) :
    JWTValidationResult :=
  if joseJwtVerify issuer audience 30 now t then
    if t.claims.sub == "" then
      { valid := false, payload := none, error := some "Missing sub claim in JWT" }
    else
      match t.claims.exp with
      | some e =>
          if e ≠ 0 ∧ e < now then
            { valid := false, payload := none, error := some "JWT token has expired" }
          else { valid := true, payload := some t.claims, error := none }
      | none => { valid := true, payload := some t.claims, error := none }
  else
    { valid := false, payload := none, error := some "JWT validation failed" }

/-- C2 counterexample: an assertion that is valid in every other respect and
whose exp is only 10 seconds in the past -- within the 30 second clock-skew
tolerance -- is nevertheless rejected, because validateToken re-checks
expiry with no tolerance after jwtVerify. -/
theorem validateToken_within_skew_rejected :
    (validateToken "iss" "aud" 1000
      { claims := { sub := "user", iss := "iss", aud := ["aud"], exp := some 990 },
        signatureValid := true }).valid = false := by decide

/-- C2 amended: every assertion whose exp lies in the past by more than the
30 second tolerance is invalid, and in fact the post-verification check
rejects every assertion with a truthy exp strictly before now, so even an
exp within the 30 second tolerance yields valid = false. -/
theorem validateToken_expiry_spec (issuer audience : String) (now e : Int)
    (t : AssertionModel) (hexp : t.claims.exp = some e)
    (h : e < now - 30 ∨ (e ≠ 0 ∧ e < now)) :
    (validateToken issuer audience now t).valid = false := by
  unfold validateToken
  by_cases hj : joseJwtVerify issuer audience 30 now t = true
  · have hlt : now - 30 < e := by
      have hj2 := hj
      simp only [joseJwtVerify, hexp, Bool.and_eq_true, decide_eq_true_eq] at hj2
      exact hj2.2
    have h2 : e ≠ 0 ∧ e < now := by
      rcases h with h | h
      · omega
      · exact h
    rw [if_pos hj]
    by_cases hsub : (t.claims.sub == "") = true
    · rw [if_pos hsub]
    · simp only [hsub, Bool.false_eq_true, if_false, hexp]
      rw [if_pos h2]
  · rw [if_neg hj]

/-- Closed witness for validateToken_expiry_spec: exp 100 seconds in the
past, beyond the tolerance. -/
theorem validateToken_expiry_spec_witness :
    (validateToken "issuer" "api" 1000
      { claims := { sub := "subject", iss := "issuer", aud := ["api"], exp := some 900 },
        signatureValid := true }).valid = false :=
  validateToken_expiry_spec "issuer" "api" 1000 900 _ (by rfl) (by norm_num)

/-! ### Token exchange service (`src/routes/gigya_dev.ts`,
`JWTTokenExchangeService`)

The service caches commerce token responses in a node-cache instance keyed
by the sha256 of the assertion.  node-cache stores an absolute millisecond
deadline with each entry: ttl 0 means no expiry, otherwise the deadline is
set time plus ttl seconds; get returns the value while the deadline has
not strictly passed and otherwise evicts the entry.  The upstream token
endpoint call (performTokenExchange) is an explicit parameter: an error
status or a token response. -/

structure CommerceTokenResponse where
  access_token : String
  token_type : String
  expires_in : Int
  scope : Option String
  refresh_token : Option String
deriving DecidableEq

structure CacheEntry where
  value : CommerceTokenResponse
  deadline : Int
deriving DecidableEq

abbrev TokenCache := List (String × CacheEntry)

/-- node-cache set with an explicit ttl in seconds: ttl 0 stores without
expiry, any other ttl stores an absolute deadline of now plus ttl
seconds (in milliseconds, negative ttl giving an already-passed
deadline). -/
def nodeCacheSet (c : TokenCache) (k : String) (v : CommerceTokenResponse)
    (ttl : Int) (now : Int) : TokenCache :=
  insertA c k { value := v, deadline := if ttl = 0 then 0 else now + ttl * 1000 }

/-- node-cache get: a hit while the deadline is 0 or has not strictly
passed; an entry whose deadline lies strictly in the past is evicted
(deleteOnExpire) and reported as a miss. -/
def nodeCacheGet (c : TokenCache) (k : String) (now : Int) :
    Option CommerceTokenResponse × TokenCache :=
  match lookupA c k with
  | none => (none, c)
  | some e => if e.deadline ≠ 0 ∧ e.deadline < now then (none, eraseA c k) else (some e.value, c)

/-- The cache key: sha256 hex digest of the assertion.  The digest is a
deterministic function of the token; it is embedded as the identity map (an
injective stand-in, hash collisions being out of scope). -/
def getCacheKey (jwtToken : String) : String := jwtToken

/-- Result of one exchangeJWTForCommerceToken call: the returned value or
thrown error status, the cache afterwards, and whether the upstream token
endpoint was called. -/
structure ExchangeOutcome where
  result : Except Int CommerceTokenResponse
  cache : TokenCache
  upstreamCalled : Bool

/-- The no-valid-cache-entry tail of exchangeJWTForCommerceToken: perform
the exchange, propagate a non-2xx failure, and cache a success under ttl
expires_in minus 60 seconds. -/
def performAndCache (c : TokenCache) (cacheKey : String) (now : Int)
    (upstream : Except Int CommerceTokenResponse) : ExchangeOutcome :=
  match upstream with
  | Except.error status =>
      { result := Except.error status, cache := c, upstreamCalled := true }
  | Except.ok tokenResponse =>
      let ttl := tokenResponse.expires_in - 60
      { result := Except.ok tokenResponse,
        cache := nodeCacheSet c cacheKey tokenResponse ttl now,
        upstreamCalled := true }

/-- JWTTokenExchangeService.exchangeJWTForCommerceToken: consult the cache;
on a hit, re-check freshness by recomputing tokenExpiry as now plus
expires_in (both in seconds) against now plus the 60 second buffer --
a comparison equivalent to expires_in > 60 -- and return the cached token
if it passes, otherwise evict and fall through to the upstream exchange. -/
def exchangeJWTForCommerceToken (c : TokenCache) (jwtToken : String) (now : Int)
    (upstream : Except Int CommerceTokenResponse) : ExchangeOutcome :=
  match nodeCacheGet c (getCacheKey jwtToken) now with
  | (some cachedToken, c1) =>
      if now / 1000 + 60 < now / 1000 + cachedToken.expires_in then
        { result := Except.ok cachedToken, cache := c1, upstreamCalled := false }
      else
        performAndCache (eraseA c1 (getCacheKey jwtToken)) (getCacheKey jwtToken) now upstream
  | (none, c1) => performAndCache c1 (getCacheKey jwtToken) now upstream

theorem performAndCache_upstream (c : TokenCache) (k : String) (now : Int)
    (up : Except Int CommerceTokenResponse) :
    (performAndCache c k now up).upstreamCalled = true := by
  cases up <;> rfl

theorem nodeCacheGet_of_none (c : TokenCache) (k : String) (now : Int)
    (hlook : lookupA c k = none) : nodeCacheGet c k now = (none, c) := by
  unfold nodeCacheGet
  rw [hlook]

theorem nodeCacheGet_of_valid (c : TokenCache) (k : String) (now : Int)
    (v : CommerceTokenResponse) (D : Int)
    (hlook : lookupA c k = some { value := v, deadline := D })
    (hvalid : ¬ (D ≠ 0 ∧ D < now)) :
    nodeCacheGet c k now = (some v, c) := by
  unfold nodeCacheGet
  rw [hlook]
  show (if D ≠ 0 ∧ D < now then ((none : Option CommerceTokenResponse), eraseA c k)
    else (some v, c)) = (some v, c)
  exact if_neg hvalid

theorem nodeCacheGet_of_expired (c : TokenCache) (k : String) (now : Int)
    (v : CommerceTokenResponse) (D : Int)
    (hlook : lookupA c k = some { value := v, deadline := D })
    (hexp : D ≠ 0 ∧ D < now) :
    nodeCacheGet c k now = (none, eraseA c k) := by
  unfold nodeCacheGet
  rw [hlook]
  show (if D ≠ 0 ∧ D < now then ((none : Option CommerceTokenResponse), eraseA c k)
    else (some v, c)) = (none, eraseA c k)
  exact if_pos hexp

theorem exchange_of_lookup_none (c : TokenCache) (jwt : String) (now : Int)
    (up : Except Int CommerceTokenResponse)
    (hlook : lookupA c (getCacheKey jwt) = none) :
    exchangeJWTForCommerceToken c jwt now up =
      performAndCache c (getCacheKey jwt) now up := by
  unfold exchangeJWTForCommerceToken
  rw [nodeCacheGet_of_none c (getCacheKey jwt) now hlook]

theorem exchange_of_valid_entry (c : TokenCache) (jwt : String) (now : Int)
    (v : CommerceTokenResponse) (D : Int) (up : Except Int CommerceTokenResponse)
    (hlook : lookupA c (getCacheKey jwt) = some { value := v, deadline := D })
    (hvalid : ¬ (D ≠ 0 ∧ D < now))
    (hfresh : 60 < v.expires_in) :
    exchangeJWTForCommerceToken c jwt now up =
      { result := Except.ok v, cache := c, upstreamCalled := false } := by
  unfold exchangeJWTForCommerceToken
  rw [nodeCacheGet_of_valid c (getCacheKey jwt) now v D hlook hvalid]
  show (if now / 1000 + 60 < now / 1000 + v.expires_in then
      ({ result := Except.ok v, cache := c, upstreamCalled := false } : ExchangeOutcome)
    else performAndCache (eraseA c (getCacheKey jwt)) (getCacheKey jwt) now up) =
    { result := Except.ok v, cache := c, upstreamCalled := false }
  rw [if_pos (by omega)]

theorem exchange_of_stale_entry (c : TokenCache) (jwt : String) (now : Int)
    (v : CommerceTokenResponse) (D : Int) (up : Except Int CommerceTokenResponse)
    (hlook : lookupA c (getCacheKey jwt) = some { value := v, deadline := D })
    (hvalid : ¬ (D ≠ 0 ∧ D < now))
    (hfresh : ¬ 60 < v.expires_in) :
    exchangeJWTForCommerceToken c jwt now up =
      performAndCache (eraseA c (getCacheKey jwt)) (getCacheKey jwt) now up := by
  unfold exchangeJWTForCommerceToken
  rw [nodeCacheGet_of_valid c (getCacheKey jwt) now v D hlook hvalid]
  show (if now / 1000 + 60 < now / 1000 + v.expires_in then
      ({ result := Except.ok v, cache := c, upstreamCalled := false } : ExchangeOutcome)
    else performAndCache (eraseA c (getCacheKey jwt)) (getCacheKey jwt) now up) =
    performAndCache (eraseA c (getCacheKey jwt)) (getCacheKey jwt) now up
  rw [if_neg (by omega)]

theorem exchange_of_expired_entry (c : TokenCache) (jwt : String) (now : Int)
    (v : CommerceTokenResponse) (D : Int) (up : Except Int CommerceTokenResponse)
    (hlook : lookupA c (getCacheKey jwt) = some { value := v, deadline := D })
    (hexp : D ≠ 0 ∧ D < now) :
    exchangeJWTForCommerceToken c jwt now up =
      performAndCache (eraseA c (getCacheKey jwt)) (getCacheKey jwt) now up := by
  unfold exchangeJWTForCommerceToken
  rw [nodeCacheGet_of_expired c (getCacheKey jwt) now v D hlook hexp]

/-- C3 amended: starting from a cache with no entry for the assertion, a
first successful exchange calls the upstream endpoint once and caches the
response; a second exchange for the same assertion is a cache hit with no
upstream call exactly while now is at most the stored computed expiry
minus the 60 second buffer -- boundary included, since node-cache evicts
only strictly past deadlines -- and in that window it returns the first
response unchanged. -/
theorem exchange_cache_roundtrip (c0 : TokenCache) (jwt : String) (t0 t1 : Int)
    (tr : CommerceTokenResponse) (up2 : Except Int CommerceTokenResponse)
    (hmiss : lookupA c0 (getCacheKey jwt) = none)
    (hE : 60 < tr.expires_in) (ht0 : 0 ≤ t0) :
    (exchangeJWTForCommerceToken c0 jwt t0 (Except.ok tr)).upstreamCalled = true ∧
    (exchangeJWTForCommerceToken c0 jwt t0 (Except.ok tr)).result = Except.ok tr ∧
    ((exchangeJWTForCommerceToken (exchangeJWTForCommerceToken c0 jwt t0 (Except.ok tr)).cache
        jwt t1 up2).upstreamCalled = false ↔
      t1 ≤ t0 + (tr.expires_in - 60) * 1000) ∧
    (t1 ≤ t0 + (tr.expires_in - 60) * 1000 →
      (exchangeJWTForCommerceToken (exchangeJWTForCommerceToken c0 jwt t0 (Except.ok tr)).cache
        jwt t1 up2).result = Except.ok tr) := by
  have h1 : exchangeJWTForCommerceToken c0 jwt t0 (Except.ok tr) =
      { result := Except.ok tr,
        cache := nodeCacheSet c0 (getCacheKey jwt) tr (tr.expires_in - 60) t0,
        upstreamCalled := true } := by
    rw [exchange_of_lookup_none c0 jwt t0 (Except.ok tr) hmiss]
    rfl
  have hD : (if tr.expires_in - 60 = 0 then (0 : Int)
      else t0 + (tr.expires_in - 60) * 1000) = t0 + (tr.expires_in - 60) * 1000 :=
    if_neg (by omega)
  have hlook1 : lookupA (exchangeJWTForCommerceToken c0 jwt t0 (Except.ok tr)).cache
      (getCacheKey jwt) =
      some { value := tr, deadline := t0 + (tr.expires_in - 60) * 1000 } := by
    rw [h1]
    show lookupA (nodeCacheSet c0 (getCacheKey jwt) tr (tr.expires_in - 60) t0)
      (getCacheKey jwt) = _
    unfold nodeCacheSet
    rw [lookupA_insertA, hD]
  refine ⟨by rw [h1], by rw [h1], ?_, ?_⟩
  · constructor
    · intro hfalse
      by_contra hw
      push_neg at hw
      have h2 := exchange_of_expired_entry _ jwt t1 tr
        (t0 + (tr.expires_in - 60) * 1000) up2 hlook1 (by constructor <;> omega)
      rw [h2, performAndCache_upstream] at hfalse
      exact Bool.noConfusion hfalse
    · intro hw
      rw [exchange_of_valid_entry _ jwt t1 tr
        (t0 + (tr.expires_in - 60) * 1000) up2 hlook1 (by omega) hE]
  · intro hw
    rw [exchange_of_valid_entry _ jwt t1 tr
      (t0 + (tr.expires_in - 60) * 1000) up2 hlook1 (by omega) hE]
/-- Closed witness for exchange_cache_roundtrip: a second exchange 1000 ms
after the first, well inside the ttl window, is served from the cache. -/
theorem exchange_cache_roundtrip_witness :
    (exchangeJWTForCommerceToken
      (exchangeJWTForCommerceToken [] "assertion" 0
        (Except.ok { access_token := "a", token_type := "bearer", expires_in := 120,
                     scope := none, refresh_token := none })).cache
      "assertion" 1000 (Except.error 500)).upstreamCalled = false :=
  (exchange_cache_roundtrip [] "assertion" 0 1000
    { access_token := "a", token_type := "bearer", expires_in := 120,
      scope := none, refresh_token := none }
    (Except.error 500) (by rfl) (by norm_num) (by norm_num)).2.2.1.mpr (by norm_num)

/-- C3 counterexample: with the first exchange at time 0 and expires_in 120,
the computed expiry is 120000 ms; a second call at now = 60000 ms, where
the computed expiry equals now + 60 s exactly (it does not exceed it), is
still served from the cache with no upstream call. -/
theorem exchange_hit_at_exact_boundary :
    ((0 : Int) + 120 * 1000 = 60000 + 60000) ∧
    (exchangeJWTForCommerceToken
      (exchangeJWTForCommerceToken [] "tok" 0
        (Except.ok { access_token := "a", token_type := "bearer", expires_in := 120,
                     scope := none, refresh_token := none })).cache
      "tok" 60000 (Except.error 500)).upstreamCalled = false ∧
    (exchangeJWTForCommerceToken
      (exchangeJWTForCommerceToken [] "tok" 0
        (Except.ok { access_token := "a", token_type := "bearer", expires_in := 120,
                     scope := none, refresh_token := none })).cache
      "tok" 60000 (Except.error 500)).result =
      Except.ok { access_token := "a", token_type := "bearer", expires_in := 120,
                  scope := none, refresh_token := none } :=
  ⟨by norm_num, by rfl, by rfl⟩

/-- C4 amended: a successful exchange always stores the response in the
cache -- under ttl expires_in minus 60 seconds, which is not clamped: a
negative ttl yields an already-expired deadline and a zero ttl (expires_in
exactly 60) stores the entry with no expiry at all -- and whenever
expires_in is at most 60 no later call for the same assertion is ever
served from the cache (each one calls the upstream endpoint). -/
theorem exchange_caching_spec (c0 : TokenCache) (jwt : String) (t0 : Int)
    (tr : CommerceTokenResponse)
    (hmiss : lookupA c0 (getCacheKey jwt) = none) :
    lookupA (exchangeJWTForCommerceToken c0 jwt t0 (Except.ok tr)).cache (getCacheKey jwt) =
      some { value := tr,
             deadline := if tr.expires_in - 60 = 0 then 0
               else t0 + (tr.expires_in - 60) * 1000 } ∧
    (tr.expires_in ≤ 60 → ∀ (t1 : Int) (up2 : Except Int CommerceTokenResponse),
      (exchangeJWTForCommerceToken (exchangeJWTForCommerceToken c0 jwt t0 (Except.ok tr)).cache
        jwt t1 up2).upstreamCalled = true) := by
  have h1 : exchangeJWTForCommerceToken c0 jwt t0 (Except.ok tr) =
      { result := Except.ok tr,
        cache := nodeCacheSet c0 (getCacheKey jwt) tr (tr.expires_in - 60) t0,
        upstreamCalled := true } := by
    rw [exchange_of_lookup_none c0 jwt t0 (Except.ok tr) hmiss]
    rfl
  have hlook1 : lookupA (exchangeJWTForCommerceToken c0 jwt t0 (Except.ok tr)).cache
      (getCacheKey jwt) =
      some { value := tr,
             deadline := if tr.expires_in - 60 = 0 then 0
               else t0 + (tr.expires_in - 60) * 1000 } := by
    rw [h1]
    show lookupA (nodeCacheSet c0 (getCacheKey jwt) tr (tr.expires_in - 60) t0)
      (getCacheKey jwt) = _
    unfold nodeCacheSet
    rw [lookupA_insertA]
  refine ⟨hlook1, ?_⟩
  intro hE t1 up2
  set d : Int := if tr.expires_in - 60 = 0 then 0 else t0 + (tr.expires_in - 60) * 1000 with hd
  have hfresh : ¬ 60 < tr.expires_in := by omega
  by_cases hexp : d ≠ 0 ∧ d < t1
  · rw [exchange_of_expired_entry _ jwt t1 tr d up2 hlook1 hexp, performAndCache_upstream]
  · rw [exchange_of_stale_entry _ jwt t1 tr d up2 hlook1 hexp hfresh,
      performAndCache_upstream]

/-- Closed witness for exchange_caching_spec: expires_in 30 (ttl negative),
a later call goes upstream again. -/
theorem exchange_caching_spec_witness :
    (exchangeJWTForCommerceToken
      (exchangeJWTForCommerceToken [] "jwt30" 0
        (Except.ok { access_token := "a", token_type := "bearer", expires_in := 30,
                     scope := none, refresh_token := none })).cache
      "jwt30" 5 (Except.error 401)).upstreamCalled = true :=
  (exchange_caching_spec [] "jwt30" 0
    { access_token := "a", token_type := "bearer", expires_in := 30,
      scope := none, refresh_token := none } (by rfl)).2 (by norm_num) 5 (Except.error 401)

/-- C4 counterexample: a successful exchange whose expires_in is exactly 60
has non-positive ttl (60 - 60 = 0), yet the result IS cached -- node-cache
treats ttl 0 as no expiry, so the entry is stored with deadline 0. -/
theorem exchange_ttl_zero_still_cached :
    ((60 : Int) - 60 ≤ 0) ∧
    lookupA (exchangeJWTForCommerceToken [] "tok60" 0
        (Except.ok { access_token := "a", token_type := "bearer", expires_in := 60,
                     scope := none, refresh_token := none })).cache "tok60" =
      some { value := { access_token := "a", token_type := "bearer", expires_in := 60,
                        scope := none, refresh_token := none }, deadline := 0 } :=
  ⟨by norm_num, by rfl⟩

/-! ### Authorization-code callback (`src/routes/auth-flow.ts`)

The `/auth/callback` handler reads the query parameters and the auth_id
cookie, resolves the PendingAuthorization, validates the state, deletes
the pending entry, and only then exchanges the code.  Query parameters and
cookies are `Option String`; JavaScript falsiness conflates a missing
parameter with the empty string.  The code-for-token exchange, userinfo
fetch and session-data construction are awaited external calls whose joint
outcome is a parameter; the stored sessions are tracked by their ids. -/

structure PendingAuthData where
  codeVerifier : String
  state : String
  createdAt : Int
deriving DecidableEq

abbrev PendingStore := List (String × PendingAuthData)

/-- JavaScript truthiness of an optional string: absent and empty are both
falsy. -/
def strTruthy : Option String → Bool
  | none => false
  | some s => !s.isEmpty

structure CallbackQuery where
  code : Option String
  state : Option String
  error : Option String
deriving DecidableEq

inductive CallbackResult where
  | redirectError (e : String)
  | invalidRequest (message : String)
  | invalidState
  | callbackFailed
  | success (sessionId : String)
deriving DecidableEq

structure CallbackOutcome where
  result : CallbackResult
  pending : PendingStore
  sessions : List String
  exchangeAttempted : Bool
deriving DecidableEq

/-- The `/auth/callback` handler. `exchangeOutcome` is the joint outcome of
`exchangeCodeForTokens` plus `getUserInfo`; any rejection lands in the
catch block, which redirects with `callback_failed`.  `newSessionId` stands
for the 32 random bytes drawn for the session id. -/
def handleCallback (pending : PendingStore) (sessions : List String)
    (authIdCookie : Option String) (q : CallbackQuery)
    (exchangeOutcome : Except String Unit) (newSessionId : String) : CallbackOutcome :=
  if strTruthy q.error then
    { result := CallbackResult.redirectError (q.error.getD ""), pending := pending,
      sessions := sessions, exchangeAttempted := false }
  else if !strTruthy q.code then
    { result := CallbackResult.invalidRequest "Missing authorization code", pending := pending,
      sessions := sessions, exchangeAttempted := false }
  else if !strTruthy q.state then
    { result := CallbackResult.invalidRequest "Missing state parameter", pending := pending,
      sessions := sessions, exchangeAttempted := false }
  else if !strTruthy authIdCookie then
    { result := CallbackResult.invalidRequest "Missing auth session", pending := pending,
      sessions := sessions, exchangeAttempted := false }
  else
    match lookupA pending (authIdCookie.getD "") with
    | none =>
        { result := CallbackResult.invalidRequest "Invalid or expired auth session",
          pending := pending, sessions := sessions, exchangeAttempted := false }
    | some authData =>
        if q.state.getD "" ≠ authData.state then
          { result := CallbackResult.invalidState, pending := pending,
            sessions := sessions, exchangeAttempted := false }
        else
          match exchangeOutcome with
          | Except.error _ =>
              { result := CallbackResult.callbackFailed,
                pending := eraseA pending (authIdCookie.getD ""),
                sessions := sessions, exchangeAttempted := true }
          | Except.ok _ =>
              { result := CallbackResult.success newSessionId,
                pending := eraseA pending (authIdCookie.getD ""),
                sessions := newSessionId :: sessions, exchangeAttempted := true }

/-- The periodic pending-auth sweep: every 5 minutes, entries older than
the 10 minute maxAge are deleted. -/
def sweepPendingAuth (pending : PendingStore) (now : Int) : PendingStore :=
  pending.filter (fun p => decide (now - p.2.createdAt ≤ 10 * 60 * 1000))

theorem strTruthy_some_ne (s : String) (hs : s ≠ "") : strTruthy (some s) = true := by
  have h : s.isEmpty = false := by
    rw [Bool.eq_false_iff]
    intro hcon
    exact hs ((String.isEmpty_iff s).mp hcon)
  simp [strTruthy, h]

theorem handleCallback_of_lookup_none (pending : PendingStore) (sessions : List String)
    (authId : String) (q : CallbackQuery) (exch : Except String Unit) (sid : String)
    (herr : strTruthy q.error = false) (hcode : strTruthy q.code = true)
    (hstateT : strTruthy q.state = true) (ha : authId ≠ "")
    (hlook : lookupA pending authId = none) :
    handleCallback pending sessions (some authId) q exch sid =
      { result := CallbackResult.invalidRequest "Invalid or expired auth session",
        pending := pending, sessions := sessions, exchangeAttempted := false } := by
  simp only [handleCallback, herr, hcode, hstateT, strTruthy_some_ne authId ha,
    Bool.not_true, Bool.false_eq_true, if_false, Option.getD_some, hlook]

theorem handleCallback_of_state_match (pending : PendingStore) (sessions : List String)
    (authId : String) (q : CallbackQuery) (exch : Except String Unit) (sid : String)
    (authData : PendingAuthData)
    (herr : strTruthy q.error = false) (hcode : strTruthy q.code = true)
    (hstate : q.state = some authData.state) (hsne : authData.state ≠ "")
    (ha : authId ≠ "")
    (hlook : lookupA pending authId = some authData) :
    (handleCallback pending sessions (some authId) q exch sid).pending =
      eraseA pending authId ∧
    (handleCallback pending sessions (some authId) q exch sid).exchangeAttempted = true := by
  simp only [handleCallback, herr, hcode, hstate, strTruthy_some_ne _ hsne,
    strTruthy_some_ne authId ha, Bool.not_true, Bool.false_eq_true, if_false,
    Option.getD_some, hlook]
  rw [if_neg (by simp)]
  cases exch <;> simp

/-- C1 counterexample: with a stored PendingAuthorization whose state is S,
a callback submitting the empty string as state -- which differs from the
stored state -- fails with invalid_request Missing state parameter (the
JavaScript falsiness check fires before the CSRF comparison), not with the
StateMismatch failure the claim requires for every non-matching submitted
state. -/
theorem handleCallback_empty_state_cex :
    (("" : String) ≠ "S") ∧
    handleCallback [("a", { codeVerifier := "v", state := "S", createdAt := 0 })] []
      (some "a") { code := some "c", state := some "", error := none }
      (Except.ok ()) "sid" =
      { result := CallbackResult.invalidRequest "Missing state parameter",
        pending := [("a", { codeVerifier := "v", state := "S", createdAt := 0 })],
        sessions := [], exchangeAttempted := false } :=
  ⟨by decide, by decide⟩

/-- C1 amended: for every stored PendingAuthorization and every nonempty
submitted state value, if the submitted state does not exactly equal the
stored state the callback fails with the state-mismatch error and neither
touches the pending store nor proceeds to the code-for-token exchange,
regardless of the authorization code; an empty or missing submitted state
instead fails earlier with invalid_request. -/
theorem handleCallback_state_mismatch (pending : PendingStore) (sessions : List String)
    (authId s : String) (q : CallbackQuery) (exch : Except String Unit) (sid : String)
    (authData : PendingAuthData)
    (herr : strTruthy q.error = false) (hcode : strTruthy q.code = true)
    (hstate : q.state = some s) (hs : s ≠ "") (ha : authId ≠ "")
    (hlook : lookupA pending authId = some authData)
    (hne : s ≠ authData.state) :
    handleCallback pending sessions (some authId) q exch sid =
      { result := CallbackResult.invalidState, pending := pending,
        sessions := sessions, exchangeAttempted := false } := by
  simp only [handleCallback, herr, hcode, hstate, strTruthy_some_ne s hs,
    strTruthy_some_ne authId ha, Bool.not_true, Bool.false_eq_true, if_false,
    Option.getD_some, hlook]
  rw [if_pos hne]

/-- Closed witness for handleCallback_state_mismatch: a nonempty submitted
state differing from the stored one yields the state-mismatch failure with
no exchange. -/
theorem handleCallback_state_mismatch_witness :
    handleCallback [("aid", { codeVerifier := "ver", state := "st1", createdAt := 0 })] []
      (some "aid") { code := some "code", state := some "other", error := none }
      (Except.ok ()) "sid2" =
      { result := CallbackResult.invalidState,
        pending := [("aid", { codeVerifier := "ver", state := "st1", createdAt := 0 })],
        sessions := [], exchangeAttempted := false } :=
  handleCallback_state_mismatch
    [("aid", { codeVerifier := "ver", state := "st1", createdAt := 0 })] []
    "aid" "other" { code := some "code", state := some "other", error := none }
    (Except.ok ()) "sid2" { codeVerifier := "ver", state := "st1", createdAt := 0 }
    (by decide) (by decide) rfl (by decide) (by decide) (by decide) (by decide)

/-- C5 counterexample: a PendingAuthorization created at time 0 is 11
minutes old at 660000 ms, beyond the 10 minute TTL -- the periodic sweep,
had it run, would have removed it -- yet the callback handler, which
performs no TTL check of its own, still consumes it and proceeds to the
token exchange instead of failing with invalid_request. -/
theorem handleCallback_expired_pending_cex :
    ((10 : Int) * 60 * 1000 < 660000 - 0) ∧
    sweepPendingAuth [("a", { codeVerifier := "v", state := "S", createdAt := 0 })] 660000
      = [] ∧
    (handleCallback [("a", { codeVerifier := "v", state := "S", createdAt := 0 })] []
      (some "a") { code := some "c", state := some "S", error := none }
      (Except.ok ()) "sid").exchangeAttempted = true ∧
    (handleCallback [("a", { codeVerifier := "v", state := "S", createdAt := 0 })] []
      (some "a") { code := some "c", state := some "S", error := none }
      (Except.ok ()) "sid").result = CallbackResult.success "sid" :=
  ⟨by norm_num, by decide, by decide, by decide⟩

/-- C5 amended: the callback fails with invalid_request and performs no
exchange exactly when the attemptId is absent from the pending store; the
handler itself checks no TTL -- expiry is enforced solely by the periodic
sweep, which keeps exactly the entries aged at most 10 minutes -- so an
expired entry that has not yet been swept is still accepted. -/
theorem handleCallback_unknown_attempt (pending : PendingStore) (sessions : List String)
    (authId : String) (q : CallbackQuery) (exch : Except String Unit) (sid : String)
    (herr : strTruthy q.error = false) (hcode : strTruthy q.code = true)
    (hstateT : strTruthy q.state = true) (ha : authId ≠ "")
    (hlook : lookupA pending authId = none) :
    handleCallback pending sessions (some authId) q exch sid =
      { result := CallbackResult.invalidRequest "Invalid or expired auth session",
        pending := pending, sessions := sessions, exchangeAttempted := false } ∧
    (∀ (k : String) (d : PendingAuthData) (now : Int),
      (k, d) ∈ sweepPendingAuth pending now ↔
        ((k, d) ∈ pending ∧ now - d.createdAt ≤ 600000)) := by
  refine ⟨handleCallback_of_lookup_none pending sessions authId q exch sid
    herr hcode hstateT ha hlook, ?_⟩
  intro k d now
  simp only [sweepPendingAuth, List.mem_filter, decide_eq_true_eq]
  norm_num

/-- Closed witness for handleCallback_unknown_attempt: an attemptId with no
pending entry is rejected as an invalid auth session. -/
theorem handleCallback_unknown_attempt_witness :
    handleCallback [] [] (some "missing")
      { code := some "c", state := some "S", error := none } (Except.ok ()) "sid" =
      { result := CallbackResult.invalidRequest "Invalid or expired auth session",
        pending := [], sessions := [], exchangeAttempted := false } :=
  (handleCallback_unknown_attempt [] [] "missing"
    { code := some "c", state := some "S", error := none } (Except.ok ()) "sid"
    (by decide) (by decide) (by decide) (by decide) rfl).1

/-- C10: once the submitted state matches the stored state, the pending
entry is deleted before the code-for-token exchange is attempted -- for
every exchange outcome, including failure -- so a second callback
presenting the same attemptId fails as an invalid auth session: the
verifier and state pair is single-use under exchange failure, not only
under success. -/
theorem handleCallback_single_use (pending : PendingStore) (sessions : List String)
    (authId : String) (q : CallbackQuery) (exch : Except String Unit) (sid : String)
    (authData : PendingAuthData)
    (herr : strTruthy q.error = false) (hcode : strTruthy q.code = true)
    (hstate : q.state = some authData.state) (hsne : authData.state ≠ "")
    (ha : authId ≠ "")
    (hlook : lookupA pending authId = some authData) :
    (handleCallback pending sessions (some authId) q exch sid).exchangeAttempted = true ∧
    lookupA (handleCallback pending sessions (some authId) q exch sid).pending authId
      = none ∧
    (∀ (sessions2 : List String) (q2 : CallbackQuery) (exch2 : Except String Unit)
        (sid2 : String),
      strTruthy q2.error = false → strTruthy q2.code = true → strTruthy q2.state = true →
      handleCallback (handleCallback pending sessions (some authId) q exch sid).pending
        sessions2 (some authId) q2 exch2 sid2 =
        { result := CallbackResult.invalidRequest "Invalid or expired auth session",
          pending := (handleCallback pending sessions (some authId) q exch sid).pending,
          sessions := sessions2, exchangeAttempted := false }) := by
  obtain ⟨hpend, hatt⟩ := handleCallback_of_state_match pending sessions authId q exch sid
    authData herr hcode hstate hsne ha hlook
  have hnone : lookupA (handleCallback pending sessions (some authId) q exch sid).pending
      authId = none := by
    rw [hpend]
    exact lookupA_eraseA pending authId
  refine ⟨hatt, hnone, ?_⟩
  intro sessions2 q2 exch2 sid2 herr2 hcode2 hstate2
  exact handleCallback_of_lookup_none _ sessions2 authId q2 exch2 sid2
    herr2 hcode2 hstate2 ha hnone

/-- Closed witness for handleCallback_single_use: after a first callback
whose exchange fails, replaying the same attemptId is rejected. -/
theorem handleCallback_single_use_witness :
    handleCallback
      (handleCallback [("aid9", { codeVerifier := "v9", state := "S9", createdAt := 0 })] []
        (some "aid9") { code := some "c9", state := some "S9", error := none }
        (Except.error "upstream 500") "sid9").pending
      [] (some "aid9") { code := some "c9", state := some "S9", error := none }
      (Except.ok ()) "sid10" =
      { result := CallbackResult.invalidRequest "Invalid or expired auth session",
        pending :=
          (handleCallback [("aid9", { codeVerifier := "v9", state := "S9", createdAt := 0 })]
            [] (some "aid9") { code := some "c9", state := some "S9", error := none }
            (Except.error "upstream 500") "sid9").pending,
        sessions := [], exchangeAttempted := false } :=
  (handleCallback_single_use
    [("aid9", { codeVerifier := "v9", state := "S9", createdAt := 0 })] []
    "aid9" { code := some "c9", state := some "S9", error := none }
    (Except.error "upstream 500") "sid9"
    { codeVerifier := "v9", state := "S9", createdAt := 0 }
    (by decide) (by decide) rfl (by decide) (by decide) (by decide)).2.2
    [] { code := some "c9", state := some "S9", error := none } (Except.ok ()) "sid10"
    (by decide) (by decide) (by decide)

/-! ### Session store sweep (`src/services/session-store.ts`)

`SessionStore.cleanExpired` iterates over all sessions, deleting every one
whose `expiresAt` is at or before now and counting the deletions.  The
secondary sessionId-to-userId index and the userInfo payload play no part
in the sweep and are elided. -/

structure SessionData where
  accessToken : String
  refreshToken : Option String
  idToken : Option String
  expiresAt : Int
deriving DecidableEq

abbrev CdcSessionStore := List (String × SessionData)

/-- SessionStore.cleanExpired: delete every session with expiresAt at or
before now, returning the surviving store and the count of deletions. -/
def cleanExpired : CdcSessionStore → Int → CdcSessionStore × Nat
  | [], _ => ([], 0)
  | (k, d) :: rest, now =>
      let r := cleanExpired rest now
      if d.expiresAt ≤ now then (r.1, r.2 + 1) else ((k, d) :: r.1, r.2)

/-- C6 counterexample: a session whose token expiry (expiresAt 0) has
passed at now = 10 but which still holds a refresh token is removed by the
sweep all the same -- the claim says such a session survives. -/
theorem cleanExpired_removes_refreshable_session :
    cleanExpired
      [("s", { accessToken := "a", refreshToken := some "r", idToken := none,
               expiresAt := 0 })] 10 = ([], 1) := by decide

/-- C6 amended: the sweep removes exactly the sessions whose expiresAt is
at or before now, regardless of any refresh token, and returns the count
of removed sessions; only sessions with an unexpired token survive. -/
theorem cleanExpired_spec (store : CdcSessionStore) (now : Int) :
    (cleanExpired store now).1 =
      store.filter (fun p => decide (now < p.2.expiresAt)) ∧
    (cleanExpired store now).2 =
      store.countP (fun p => decide (p.2.expiresAt ≤ now)) := by
  induction store with
  | nil => exact ⟨rfl, rfl⟩
  | cons hd tl ih =>
      obtain ⟨k, d⟩ := hd
      by_cases h : d.expiresAt ≤ now
      · have hnot : ¬ (now < d.expiresAt) := by omega
        simp only [cleanExpired, h, if_pos, List.filter_cons, List.countP_cons,
          decide_eq_true_eq, hnot, if_false, decide_eq_true h]
        constructor
        · simpa using ih.1
        · simp [ih.2]
      · have hlt : now < d.expiresAt := by omega
        simp only [cleanExpired, h, if_neg, List.filter_cons, List.countP_cons,
          decide_eq_true_eq, hlt, if_true, decide_eq_true hlt]
        constructor
        · simp [ih.1]
        · simpa using ih.2

/-! ### JWT session check (`src/routes/gigya_dev.ts`, `/jwt-auth/session`)

The handler looks the session up under the jwt_ cookie prefix; if the
commerce token is expired (isSessionExpired, with a 60 second buffer) it
refreshes transparently when a refresh token exists, deleting the session
when the refresh fails or no refresh token is present.  The refresh call
outcome is a parameter. -/

structure JWTSessionData where
  userId : String
  email : Option String
  name : Option String
  uid : Option String
  commerceAccessToken : String
  commerceTokenExpiry : Int
  commerceRefreshToken : Option String
  originalJWT : String
  createdAt : Int
  lastAccessed : Int
deriving DecidableEq

abbrev JWTSessionStore := List (String × JWTSessionData)

/-- JWTTokenExchangeService.isSessionExpired: expired when the commerce
token expiry is within 60 seconds of now or past. -/
def isSessionExpired (now : Int) (session : JWTSessionData) : Bool :=
  decide (session.commerceTokenExpiry < now + 60 * 1000)

/-- JWTTokenExchangeService.updateSessionWithRefreshedToken: new access
token and expiry, keeping the old refresh token when the response carries
none (JavaScript falsiness: an empty-string refresh token also falls
back). -/
def updateSessionWithRefreshedToken (now : Int) (session : JWTSessionData)
    (commerceToken : CommerceTokenResponse) : JWTSessionData :=
  { session with
    commerceAccessToken := commerceToken.access_token,
    commerceTokenExpiry := now + commerceToken.expires_in * 1000,
    commerceRefreshToken :=
      match commerceToken.refresh_token with
      | some r => if r.isEmpty then session.commerceRefreshToken else some r
      | none => session.commerceRefreshToken,
    lastAccessed := now }

structure SessionCheckReply where
  status : Nat
  authenticated : Bool
  message : Option String
deriving DecidableEq

/-- The GET /jwt-auth/session handler: cookie, lookup under the jwt_
prefix, expiry check, transparent refresh or deletion, and the
last-accessed touch on the live path. -/
def checkJWTSession (store : JWTSessionStore) (cookie : Option String) (now : Int)
    (refreshOutcome : Except String CommerceTokenResponse) :
    SessionCheckReply × JWTSessionStore :=
  match cookie with
  | none =>
      ({ status := 401, authenticated := false, message := some "No JWT session found" },
        store)
  | some sessionId =>
    if sessionId.isEmpty then
      ({ status := 401, authenticated := false, message := some "No JWT session found" },
        store)
    else
      match lookupA store ("jwt_" ++ sessionId) with
      | none =>
          ({ status := 401, authenticated := false, message := some "Invalid JWT session" },
            store)
      | some session =>
        if isSessionExpired now session then
          match session.commerceRefreshToken with
          | some r =>
            if r.isEmpty then
              ({ status := 401, authenticated := false, message := some "Session expired" },
                eraseA store ("jwt_" ++ sessionId))
            else
              match refreshOutcome with
              | Except.ok tok =>
                  ({ status := 200, authenticated := true, message := none },
                    insertA store ("jwt_" ++ sessionId)
                      (updateSessionWithRefreshedToken now session tok))
              | Except.error _ =>
                  ({ status := 401, authenticated := false,
                     message := some "Session expired and refresh failed" },
                    eraseA store ("jwt_" ++ sessionId))
          | none =>
              ({ status := 401, authenticated := false, message := some "Session expired" },
                eraseA store ("jwt_" ++ sessionId))
        else
          ({ status := 200, authenticated := true, message := none },
            insertA store ("jwt_" ++ sessionId)
              { session with lastAccessed := now })

/-- C7: for a session whose commerce token is expired -- if a (nonempty)
refresh token exists and the refresh succeeds, the handler updates the
stored session with the refreshed token (whose expiry becomes now plus
expires_in seconds) and reports authenticated; if no refresh token exists
or the refresh fails, the session is deleted from the store and reported
unauthenticated, never silently resurrected. -/
theorem checkJWTSession_expired_spec (store : JWTSessionStore) (sessionId : String)
    (now : Int) (session : JWTSessionData)
    (refreshOutcome : Except String CommerceTokenResponse)
    (hsid : sessionId ≠ "")
    (hlook : lookupA store ("jwt_" ++ sessionId) = some session)
    (hexp : isSessionExpired now session = true) :
    (∀ (r : String) (tok : CommerceTokenResponse),
      session.commerceRefreshToken = some r → r ≠ "" →
      refreshOutcome = Except.ok tok →
      (checkJWTSession store (some sessionId) now refreshOutcome).1.authenticated = true ∧
      lookupA (checkJWTSession store (some sessionId) now refreshOutcome).2
          ("jwt_" ++ sessionId) =
        some (updateSessionWithRefreshedToken now session tok) ∧
      (updateSessionWithRefreshedToken now session tok).commerceTokenExpiry =
        now + tok.expires_in * 1000) ∧
    ((session.commerceRefreshToken = none ∨ session.commerceRefreshToken = some "" ∨
        (∃ e, refreshOutcome = Except.error e)) →
      (checkJWTSession store (some sessionId) now refreshOutcome).1.authenticated = false ∧
      lookupA (checkJWTSession store (some sessionId) now refreshOutcome).2
        ("jwt_" ++ sessionId) = none) := by
  have hempty : sessionId.isEmpty = false := by
    rw [Bool.eq_false_iff]
    intro hcon
    exact hsid ((String.isEmpty_iff sessionId).mp hcon)
  constructor
  · intro r tok hr hrne hok
    have hrempty : r.isEmpty = false := by
      rw [Bool.eq_false_iff]
      intro hcon
      exact hrne ((String.isEmpty_iff r).mp hcon)
    simp only [checkJWTSession, hempty, Bool.false_eq_true, if_false, hlook, hexp,
      if_true, hr, hrempty, hok]
    exact ⟨by trivial, lookupA_insertA _ _ _, by trivial⟩
  · intro hcase
    rcases hcase with hnone | hemp | ⟨e, herr⟩
    · simp only [checkJWTSession, hempty, Bool.false_eq_true, if_false, hlook, hexp,
        if_true, hnone]
      exact ⟨by trivial, lookupA_eraseA _ _⟩
    · simp only [checkJWTSession, hempty, Bool.false_eq_true, if_false, hlook, hexp,
        if_true, hemp, String.isEmpty_iff]
      exact ⟨by trivial, lookupA_eraseA _ _⟩
    · simp only [checkJWTSession, hempty, Bool.false_eq_true, if_false, hlook, hexp,
        if_true, herr]
      rcases session.commerceRefreshToken with _ | r
      · exact ⟨by trivial, lookupA_eraseA _ _⟩
      · by_cases hre : r.isEmpty
        · simp only [hre, if_true]
          exact ⟨by trivial, lookupA_eraseA _ _⟩
        · simp only [hre, Bool.false_eq_true, if_false]
          exact ⟨by trivial, lookupA_eraseA _ _⟩

/-- Closed witness for checkJWTSession_expired_spec: an expired session
with refresh token r is transparently refreshed and reported
authenticated. -/
theorem checkJWTSession_expired_spec_witness :
    (checkJWTSession
      [("jwt_s1", { userId := "u", email := none, name := none, uid := none,
                    commerceAccessToken := "old", commerceTokenExpiry := 0,
                    commerceRefreshToken := some "r", originalJWT := "j",
                    createdAt := 0, lastAccessed := 0 })]
      (some "s1") 100000
      (Except.ok { access_token := "new", token_type := "bearer", expires_in := 3600,
                   scope := none, refresh_token := none })).1.authenticated = true :=
  ((checkJWTSession_expired_spec
    [("jwt_s1", { userId := "u", email := none, name := none, uid := none,
                  commerceAccessToken := "old", commerceTokenExpiry := 0,
                  commerceRefreshToken := some "r", originalJWT := "j",
                  createdAt := 0, lastAccessed := 0 })]
    "s1" 100000
    { userId := "u", email := none, name := none, uid := none,
      commerceAccessToken := "old", commerceTokenExpiry := 0,
      commerceRefreshToken := some "r", originalJWT := "j",
      createdAt := 0, lastAccessed := 0 }
    (Except.ok { access_token := "new", token_type := "bearer", expires_in := 3600,
                 scope := none, refresh_token := none })
    (by decide) (by decide) (by decide)).1 "r"
    { access_token := "new", token_type := "bearer", expires_in := 3600,
      scope := none, refresh_token := none }
    rfl (by decide) rfl).1

end LenzingProof
